import Mathlib

/-!
Verification of the deterministic scoring and signal-detection engine of the
daily_stock_analysis repository: the buy-point analyzer
(`buy_point_analyzer.py`), the Dang-style value filter (`dang_filter.py`) and
the dividend-yield estimator (`dividend_analyzer.py`).

Modelling conventions:
* Python floats are modelled as rationals (`ℚ`); every comparison and every
  arithmetic operation relevant to the claims is exact linear arithmetic, so
  the branch structure is preserved.
* Missing dataframe columns / `None` values are modelled as `Option ℚ`; the
  source's `row.get(col, 0)` becomes `Option.getD 0`.
* Commentary strings that interpolate numerically formatted values
  (Python f-strings such as `f"量比{vr:.2f}"`) are rendered through the
  helper `fq` which stands in for Python's numeric formatting; no claim
  inspects those formatted digits.  Signal tags, labels and the sentinel
  reason strings are modelled verbatim.
* `round(x, 2)` is modelled by `round2`; Python rounds half to even while
  `round2` rounds half up — the two agree everywhere except at exact
  half-cent values, which no claim or concrete input below exercises.
-/

namespace StockAnalysis

/-- Python `round(x, 2)`. -/
def round2 (x : ℚ) : ℚ := (round (x * 100) : ℤ) / 100

/-- pandas `series.tail(n)`: the `n` most recent entries (all if fewer). -/
def tailN (n : Nat) (l : List ℚ) : List ℚ := l.drop (l.length - n)

/-- Models `series.max()` for a nonempty series (all call sites guard nonemptiness;
the 0 returned on `[]` is never observed). -/
def listMax : List ℚ → ℚ
  | [] => 0
  | x :: xs => xs.foldl max x

/-- Models `series.min()` for a nonempty series (all call sites guard nonemptiness;
the 0 returned on `[]` is never observed). -/
def listMin : List ℚ → ℚ
  | [] => 0
  | x :: xs => xs.foldl min x

/-- Models `series.mean()`: arithmetic mean (0 on the empty series). -/
def qMean (l : List ℚ) : ℚ := l.sum / l.length

/-- Test `beginsWith needle hay`: does `hay` start with `needle`? -/
def beginsWith : List Char → List Char → Bool
  | [], _ => true
  | _ :: _, [] => false
  | a :: as, b :: bs => a == b && beginsWith as bs

/-- Substring occurrence on character lists. -/
def hasSub : List Char → List Char → Bool
  | [], needle => needle.isEmpty
  | h :: t, needle => beginsWith needle (h :: t) || hasSub t needle

/-- Python's substring test `needle in hay`. -/
def containsStr (hay needle : String) : Bool := hasSub hay.data needle.data

/-- Stands in for Python's f-string numeric formatting; no claim inspects it. -/
def fq (x : ℚ) : String := toString x

/-! ## Buy-point analyzer (`buy_point_analyzer.py`) -/

/-- One row of the historical K-line dataframe.  `close`, `high`, `low` are the
price columns the analyzer reads; the moving-average and volume-ratio columns
may be absent (`latest.get(col, default)` in the source).  The unused `open`
and `volume` columns are not modelled. -/
structure Bar where
  close : ℚ
  high : ℚ
  low : ℚ
  ma5 : Option ℚ := none
  ma10 : Option ℚ := none
  ma20 : Option ℚ := none
  ma120 : Option ℚ := none
  volumeRatio : Option ℚ := none
deriving DecidableEq

/-- The realtime quote dict; the `price` key may be absent
(`realtime_quote.get('price', 0)`). -/
structure Quote where
  price : Option ℚ := none
deriving DecidableEq

def defaultBar : Bar := ⟨0, 0, 0, none, none, none, none, none⟩

/-- Source `BuyPointAnalyzer._analyze_short_signal`.  Returns the signal tag (the
accompanying detail string only interpolates formatted numbers and is not
modelled).  `df` is used only by the volume-breakout branch for the recent
high; the caller guarantees a nonempty dataframe. -/
def analyzeShortSignal (price ma5 ma10 ma20 volumeRatio : ℚ) (df : List Bar) :
    String :=
  let bias_ma5 : ℚ := if ma5 > 0 then (price - ma5) / ma5 * 100 else 0
  let bias_ma10 : ℚ := if ma10 > 0 then (price - ma10) / ma10 * 100 else 0
  -- `ma5 > ma10 > ma20 if all([ma5, ma10, ma20]) else False`
  if volumeRatio < 8/10 ∧ |bias_ma10| < 3 ∧
      ((ma5 ≠ 0 ∧ ma10 ≠ 0 ∧ ma20 ≠ 0) ∧ ma5 > ma10 ∧ ma10 > ma20) then
    "缩量回踩"
  else if volumeRatio < 8/10 ∧ |bias_ma5| < 2 then
    "缩量回踩"
  else if volumeRatio > 3/2 ∧ bias_ma5 > 0 ∧ bias_ma5 < 5 then
    let recent_high :=
      if 20 ≤ df.length then listMax (tailN 20 (df.map (·.high)))
      else listMax (df.map (·.high))
    if price ≥ recent_high * (98/100) then "放量突破" else "放量上行"
  else if ma20 > 0 ∧ price < ma20 * (98/100) then
    "破位"
  else if bias_ma5 > 5 ∨ bias_ma10 > 8 then
    "乖离过大"
  else
    "无信号"

/-- Source `BuyPointAnalyzer._determine_label`. -/
def determineLabel (short_signal ma120_status : String) (ma120_deviation : ℚ) :
    String × String :=
  if short_signal = "破位" then ("🔴", "规避")
  else if short_signal = "乖离过大" then ("🟡", "观望")
  else if short_signal ∈ (["缩量回踩", "放量突破"] : List String) then
    if ma120_status = "价格小于MA120" then ("⭐", "最佳买点")
    else if ma120_status = "价格≈MA120" then ("🟢", "良好买点")
    else ("🟢", "良好买点")
  else if ma120_status = "价格小于MA120" ∧ ma120_deviation < -5 then
    ("🟡", "观望(价值区)")
  else ("🟡", "观望")

/-- Descending comparison on the price component, used for
`valid_supports.sort(key=lambda x: x[0], reverse=True)`. -/
def descFst (a b : ℚ × String) : Prop := b.1 ≤ a.1

instance : DecidableRel descFst := fun a b => inferInstanceAs (Decidable (b.1 ≤ a.1))

instance : IsTotal (ℚ × String) descFst := ⟨fun a b => le_total b.1 a.1⟩

instance : IsTrans (ℚ × String) descFst := ⟨fun _ _ _ hab hbc => le_trans hbc hab⟩

/-- The three Fibonacci retracement levels measured down from the 60-bar high
(`fib_levels` in `_calculate_support_price`), keyed by their `:.3f`-formatted
ratio. -/
def fibLevels (hi lo : ℚ) : List (String × ℚ) :=
  [("0.382", hi - (hi - lo) * (382/1000)),
   ("0.500", hi - (hi - lo) * (500/1000)),
   ("0.618", hi - (hi - lo) * (618/1000))]

/-- The candidate list `resonance_supports` built by
`_calculate_support_price` in the ≥60-bar branch: Fibonacci levels below the
current price (tagged with resonating MAs when one lies within 1.5%), then
standalone MA supports deduplicated against the growing list.  The resonance
test `abs(ma_val - fib_price) / fib_price < 0.015` divides by a numpy scalar:
when the level is exactly 0 the quotient is `inf` (or `nan`), which fails the
comparison — hence the explicit `rf.2 ≠ 0` conjunct, since `ℚ` division by
zero would instead give 0 and spuriously pass; for every nonzero level the
float comparison agrees with the exact rational one. -/
def resonanceSupports (df : List Bar) (current_price : ℚ)
    (ma_dict : List (String × ℚ)) : List (ℚ × String) :=
  let hi := listMax (tailN 60 (df.map (·.high)))
  let lo := listMin (tailN 60 (df.map (·.low)))
  let fibPart := (fibLevels hi lo).foldl (fun acc rf =>
    if rf.2 ≥ current_price then acc
    else
      let matched := ((ma_dict.filter
        (fun m => rf.2 ≠ 0 ∧ |m.2 - rf.2| / rf.2 < 15/1000)).map (·.1))
      if matched ≠ [] then
        acc ++ [(rf.2, "黄金分割" ++ rf.1 ++ " + " ++ String.intercalate "/" matched ++ "共振")]
      else
        acc ++ [(rf.2, "黄金分割" ++ rf.1 ++ "支撑")]) []
  ma_dict.foldl (fun acc m =>
    if 0 < m.2 ∧ m.2 < current_price then
      if acc.any (fun res => |res.1 - m.2| / m.2 < 15/1000) then acc
      else acc ++ [(m.2, m.1 ++ "支撑")]
    else acc) fibPart

/-- Source `BuyPointAnalyzer._calculate_support_price`.  No branch of the
≥60-bar path can raise: the only division by a possibly-zero quantity is the
resonance test, whose numpy-scalar `inf`/`nan` outcome is modelled inside
`resonanceSupports`, so the surrounding `except` handler is dead code here. -/
def calculateSupportPrice (df : List Bar) (current_price : ℚ)
    (ma_dict : List (String × ℚ)) : Option ℚ × String :=
  if df.length < 60 then
    -- data too short: moving averages only
    let candidates := ma_dict.foldl (fun acc m =>
      if 0 < m.2 ∧ m.2 < current_price then acc ++ [(m.2, m.1 ++ "支撑")] else acc) []
    match candidates with
    | [] => (none, "")
    | c :: cs =>
      -- Python `max(candidates, key=...)` keeps the first maximum
      let best := cs.foldl (fun b x => if b.1 < x.1 then x else b) c
      (some (round2 best.1), best.2)
  else
    let supports := resonanceSupports df current_price ma_dict
    if supports = [] then (none, "")
    else
      let valid := supports.filter (fun s => s.1 < current_price * (995/1000))
      if valid = [] then (none, "")
      else
        match valid.insertionSort descFst with
        | [] => (none, "")  -- unreachable: sorting preserves nonemptiness
        | b :: _ => (some (round2 b.1), b.2)

/-- Source `BuyPointAnalyzer._calculate_take_profit`. -/
def calculateTakeProfit (df : List Bar) (current_price : ℚ) : Option ℚ :=
  if df.length < 20 then none
  else
    let recent_high := listMax (tailN 60 (df.map (·.high)))
    if recent_high > current_price * (103/100) then some (round2 recent_high)
    else none

/-- Renders an optional add-on price inside an advice f-string; stands in for
Python's float/None interpolation. -/
def priceStr : Option ℚ → String
  | none => "None"
  | some p => fq p

/-- Source `BuyPointAnalyzer._generate_advice`. -/
def generateAdvice (label short_signal ma120_status : String)
    (add_price : Option ℚ) : String :=
  if label = "⭐" then
    if short_signal = "缩量回踩" then
      "可分批建仓，回踩" ++ priceStr add_price ++ "元附近可加仓"
    else "可适量建仓，注意控制仓位"
  else if label = "🟢" then
    if short_signal = "缩量回踩" then
      "可小仓试探，等待回踩" ++ priceStr add_price ++ "元加仓"
    else "可关注，突破后轻仓跟进"
  else if label = "🔴" then "建议暂时规避，等待企稳信号"
  else
    if ma120_status = "价格小于MA120" then "处于价值区，可等待短期买点信号"
    else "暂无明确信号，继续观察"

/-- The `BuyPointResult` dataclass (the `short_signal_detail` field only
carries formatted numerics and is not modelled). -/
structure BuyPointResult where
  label : String
  label_text : String
  short_signal : String
  ma120_status : String
  ma120_deviation : ℚ
  add_price : Option ℚ
  add_price_desc : String
  take_profit_price : Option ℚ
  stop_loss_price : Option ℚ
  current_advice : String
  current_price : ℚ
  ma5 : ℚ
  ma10 : ℚ
  ma20 : ℚ
  ma120 : ℚ
  volumeRatio : ℚ
deriving DecidableEq

/-- The MA120 resolution step of `BuyPointAnalyzer.analyze`: the stored
`ma120` column of the latest row, replaced by the dynamic fallback (mean of
the up-to-120 most recent closes) only when it is ≤ 0 **and** the series has
at least 20 bars. -/
def resolveMa120 (df : List Bar) : ℚ :=
  let stored := (df.getLastD defaultBar).ma120.getD 0
  if stored ≤ 0 ∧ 20 ≤ df.length then
    if 120 ≤ df.length then qMean (tailN 120 (df.map (·.close)))
    else qMean (df.map (·.close))
  else stored

/-- The successful branch of `BuyPointAnalyzer.analyze`, given the already
resolved (positive) MA120. -/
def buildResult (df : List Bar) (realtime_quote : Option Quote) (ma120 : ℚ) :
    BuyPointResult :=
  let latest := df.getLastD defaultBar
  let base_price := latest.close
  let current_price :=
    match realtime_quote with
    | some rq => if 0 < rq.price.getD 0 then rq.price.getD 0 else base_price
    | none => base_price
  let ma5 := latest.ma5.getD 0
  let ma10 := latest.ma10.getD 0
  let ma20 := latest.ma20.getD 0
  let volumeRatio := latest.volumeRatio.getD 1
  let ma120_deviation := (current_price - ma120) / ma120 * 100
  let ma120_status :=
    if ma120_deviation < -3 then "价格小于MA120"
    else if ma120_deviation ≤ 3 then "价格≈MA120"
    else "价格大于MA120"
  let short_signal := analyzeShortSignal current_price ma5 ma10 ma20 volumeRatio df
  let lbl := determineLabel short_signal ma120_status ma120_deviation
  let ma_dict : List (String × ℚ) :=
    [("MA5", ma5), ("MA10", ma10), ("MA20", ma20), ("MA120", ma120)]
  let sup := calculateSupportPrice df current_price ma_dict
  let take_profit_price := calculateTakeProfit df current_price
  let stop_loss_price := if ma20 > 0 then some (round2 (ma20 * (98/100))) else none
  let current_advice := generateAdvice lbl.1 short_signal ma120_status sup.1
  { label := lbl.1
    label_text := lbl.2
    short_signal := short_signal
    ma120_status := ma120_status
    ma120_deviation := round2 ma120_deviation
    add_price := sup.1
    add_price_desc := sup.2
    take_profit_price := take_profit_price
    stop_loss_price := stop_loss_price
    current_advice := current_advice
    current_price := round2 current_price
    ma5 := round2 ma5
    ma10 := round2 ma10
    ma20 := round2 ma20
    ma120 := round2 ma120
    volumeRatio := round2 volumeRatio }

/-- Source `BuyPointAnalyzer.analyze`.  A `None` realtime quote models both an absent
quote and Python's falsy empty dict (both skip the price override, as does a
quote whose price is missing, zero or negative). -/
def analyze (df : List Bar) (realtime_quote : Option Quote) :
    Option BuyPointResult :=
  if df.length < 5 then none
  else
    if resolveMa120 df ≤ 0 then none
    else some (buildResult df realtime_quote (resolveMa120 df))

/-! ## Dang-style value filter (`dang_filter.py`).  The templated commentary
strings and the `risk_items` list (which only collects those strings) are not
modelled; every numeric field, status tag, flag and penalty is. -/

inductive IndustryTier | PREFERRED | NORMAL | CAUTION | BLACKLIST
deriving DecidableEq

inductive StockType | CYCLICAL | BANKING | TECH | CONSUMER | DEFAULT
deriving DecidableEq

def PREFERRED_INDUSTRIES : List String :=
  ["银行", "国有大型银行", "股份制银行", "城商行", "农商行",
   "有色金属", "铜", "铝", "锌", "锡", "黄金", "稀土",
   "煤炭", "煤炭开采",
   "石油", "石油开采",
   "矿产", "铁矿", "锂矿",
   "电力", "水电", "火电", "核电",
   "高速公路", "港口", "机场"]

def BLACKLIST_INDUSTRIES : List String :=
  ["光伏", "光伏设备", "光伏电池", "组件",
   "电池", "锂电池", "动力电池", "储能电池",
   "电动车", "新能源车", "新能源汽车", "整车",
   "影视", "电影", "传媒", "游戏", "手游",
   "房地产", "地产", "房地产开发", "物业",
   "光伏组件", "电池组件"]

def CAUTION_INDUSTRIES : List String :=
  ["证券", "保险", "医药", "生物医药", "白酒", "半导体", "芯片"]

/-- One archetype row of `PE_THRESHOLDS`. -/
structure PEBands where
  ideal : ℚ
  acceptable : ℚ
  warning : ℚ
  danger : ℚ
deriving DecidableEq

/-- The `PE_THRESHOLDS` table (total over the enum, so the `.get` fallback to
the DEFAULT row never fires). -/
def PE_THRESHOLDS : StockType → PEBands
  | .CYCLICAL => ⟨10, 15, 20, 30⟩
  | .BANKING => ⟨4, 6, 8, 12⟩
  | .TECH => ⟨20, 40, 100, 300⟩
  | .CONSUMER => ⟨15, 25, 35, 50⟩
  | .DEFAULT => ⟨12, 20, 30, 50⟩

/-- Source `DangFilter.classify_industry` (tier component; the comment only echoes
the industry name). -/
def classifyIndustry (industry : String) : IndustryTier :=
  if industry = "" then .NORMAL
  else if BLACKLIST_INDUSTRIES.any (fun kw => containsStr industry kw) then .BLACKLIST
  else if PREFERRED_INDUSTRIES.any (fun kw => containsStr industry kw) then .PREFERRED
  else if CAUTION_INDUSTRIES.any (fun kw => containsStr industry kw) then .CAUTION
  else .NORMAL

/-- Source `DangFilter.classify_stock_type`. -/
def classifyStockType (industry : String) : StockType :=
  if industry = "" then .DEFAULT
  else if containsStr industry "银行" then .BANKING
  else if ["有色", "煤炭", "钢铁", "石油", "化工", "矿", "水泥", "航运"].any
      (fun kw => containsStr industry kw) then .CYCLICAL
  else if ["科技", "软件", "互联网", "半导体", "芯片", "AI", "人工智能", "云计算"].any
      (fun kw => containsStr industry kw) then .TECH
  else if ["白酒", "食品", "饮料", "家电", "服装", "零售", "消费"].any
      (fun kw => containsStr industry kw) then .CONSUMER
  else .DEFAULT

/-- Source `DangFilter.evaluate_pe` over an explicit threshold row (status and score;
the comment only interpolates the PE value). -/
def evaluatePEWith (th : PEBands) (pe : Option ℚ) : String × ℤ :=
  match pe with
  | none => ("未知", 10)
  | some p =>
    if p ≤ 0 then ("未知", 10)
    else if p ≤ th.ideal then ("理想", 25)
    else if p ≤ th.acceptable then ("可接受", 20)
    else if p ≤ th.warning then ("警告", 10)
    else ("危险", 0)

/-- Source `DangFilter.evaluate_pe`. -/
def evaluatePE (pe : Option ℚ) (stock_type : StockType) : String × ℤ :=
  evaluatePEWith (PE_THRESHOLDS stock_type) pe

/-- Source `DangFilter.evaluate_dividend` (status and score). -/
def evaluateDividend (dividend_yield : Option ℚ) : String × ℤ :=
  match dividend_yield with
  | none => ("未知", 5)
  | some y =>
    if y ≥ 5 then ("优秀", 20)
    else if y ≥ 3 then ("良好", 15)
    else if y ≥ 1 then ("可接受", 8)
    else ("差", 0)

/-- Source `DangFilter.check_profit_take` (alert flag; the nonempty comment exists
exactly when the flag is set). -/
def checkProfitTake (price_change_pct : Option ℚ) : Bool :=
  match price_change_pct with
  | none => false
  | some c => decide (c ≥ 30)

/-- Source `DangFilter.check_rebuy_opportunity` (flag component). -/
def checkRebuyOpportunity (price_drop_pct : Option ℚ) : Bool :=
  match price_drop_pct with
  | none => false
  | some d => decide (d ≥ 10)

/-- The claim-relevant part of `DangAnalysisResult`. -/
structure DangAnalysisResult where
  industry_tier : IndustryTier
  stock_type : StockType
  pe_status : String
  pe_score : ℤ
  dividend_status : String
  dividend_score : ℤ
  profit_take_alert : Bool
  rebuy_opportunity : Bool
  risk_penalty : ℤ
  fundamental_score : ℤ
deriving DecidableEq

/-- Source `DangFilter.analyze`. -/
def dangAnalyze (industry : String) (pe dividend_yield price_change_pct
    price_from_high_pct : Option ℚ) (shareholder_selling : Bool) :
    DangAnalysisResult :=
  let tier := classifyIndustry industry
  let stype := classifyStockType industry
  let peRes := evaluatePE pe stype
  let divRes := evaluateDividend dividend_yield
  let profit_take_alert := checkProfitTake price_change_pct
  let rebuy_opportunity := checkRebuyOpportunity price_from_high_pct
  let risk_penalty : ℤ :=
    (if profit_take_alert then -10 else 0) +
    (if shareholder_selling then -5 else 0) +
    (if tier = .BLACKLIST then -5 else 0) +
    (if peRes.1 = "危险" then -5 else 0) +
    (if divRes.1 = "差" then -3 else 0)
  let industry_score : ℤ :=
    match tier with
    | .PREFERRED => 15
    | .NORMAL => 10
    | .CAUTION => 5
    | .BLACKLIST => 0
  let raw := peRes.2 + divRes.2 + industry_score + risk_penalty
  { industry_tier := tier
    stock_type := stype
    pe_status := peRes.1
    pe_score := peRes.2
    dividend_status := divRes.1
    dividend_score := divRes.2
    profit_take_alert := profit_take_alert
    rebuy_opportunity := rebuy_opportunity
    risk_penalty := risk_penalty
    fundamental_score := max 0 (min 60 raw) }

/-! ## Dividend-yield estimator (`dividend_analyzer.py`) -/

/-- One row of the dividend-history dataframe: the report period string and
the parsed `股利支付率` column as a percentage (`none` models `NaN`, `'--'`
and unparseable strings, all of which the source skips). -/
structure DivRow where
  reportPeriod : String
  payoutPct : Option ℚ
deriving DecidableEq

/-- Models `df[df['报告期'].str.contains('年报')]`. -/
def annualRows (df : List DivRow) : List DivRow :=
  df.filter (fun r => containsStr r.reportPeriod "年报")

/-- Models `sort_values(by='报告期', ascending=False)`. -/
def sortByPeriodDesc (l : List DivRow) : List DivRow :=
  l.insertionSort (fun a b => ¬ a.reportPeriod < b.reportPeriod)

/-- Source `DividendAnalyzer.calculate_avg_payout_ratio` (default `years = 3`),
with the per-row loop mirrored as a fold accumulating the valid payouts. -/
def avgPayoutRatio (df : List DivRow) (years : Nat) : ℚ :=
  if df = [] then 0
  else
    let recent := (sortByPeriodDesc (annualRows df)).take years
    let payouts := recent.foldl (fun acc r =>
      match r.payoutPct with
      | none => acc
      | some v =>
        let payout := v / 100
        if 0 < payout ∧ payout < 2 then acc ++ [payout] else acc) []
    if payouts = [] then 0 else payouts.sum / payouts.length

/-- Modelled from the spec: the payout-ratio sentence of the estimator
("annual-report rows only, most recent N=3, values within (0, 2.0) exclusive
to filter anomalous one-off distributions, averaged"), written independently
of the source's loop so the two can be compared. -/
def avgPayoutGloss (df : List DivRow) : ℚ :=
  let vals := ((sortByPeriodDesc (annualRows df)).take 3).filterMap (fun r =>
    r.payoutPct.bind (fun v =>
      if 0 < v / 100 ∧ v / 100 < 2 then some (v / 100) else none))
  if vals = [] then 0 else vals.sum / vals.length

/-- Source `DividendAnalyzer.calculate_expected_yield`.  The dividend-history and
stock-type collaborators are modelled by the values they would return
(`hist`, `fetched_type`); the boolean in the result records whether the
dividend-history collaborator was invoked on this path.  `pe_dynamic` is
`Option` because the source checks `pe_dynamic is None`; `stock_type` is
optional and falsy (`None`/empty) values trigger the type fetch. -/
def calcExpectedYield (hist : List DivRow) (fetched_type : String)
    (current_price : ℚ) (pe_dynamic : Option ℚ) (stock_type : Option String) :
    (ℚ × String) × Bool :=
  -- `current_price <= 0 or (pe_dynamic is None or pe_dynamic <= 0)`
  if current_price ≤ 0 ∨ pe_dynamic = none ∨ pe_dynamic.getD 0 ≤ 0 then
    ((0, "价格或PE数据无效"), false)
  else
    let pe := pe_dynamic.getD 0
    let stype :=
      match stock_type with
      | none => fetched_type
      | some s => if s = "" then fetched_type else s
    let eps_forecast := current_price / pe
    let base_payout : ℚ :=
      if hist = [] then (if stype = "bank" ∨ stype = "utility" then 3/10 else 0)
      else avgPayoutRatio hist 3
    let reason_payout : String :=
      if hist = [] then "无历史数据(默认)"
      else "三年平均" ++ fq (avgPayoutRatio hist 3 * 100) ++ "%"
    -- the bank floor correction (the cyclical branch is `pass`)
    let final_payout : ℚ :=
      if stype = "bank" ∧ base_payout < 3/10 then 3/10 else base_payout
    let correction_log : List String :=
      if stype = "bank" ∧ base_payout < 3/10 then ["银行修正(底线30%)"] else []
    let expected_dividend := eps_forecast * final_payout
    let expected_yield := expected_dividend / current_price * 100
    ((expected_yield,
      "预测EPS " ++ fq eps_forecast ++ " (基于PE动" ++ fq pe ++ ") x 派息率 " ++
        fq (final_payout * 100) ++ "% (" ++ reason_payout ++
        String.join correction_log ++ ")"), true)

/-! ## Statement helpers and concrete sample inputs -/

/-- The stock-type resolution step of `calculate_expected_yield` (`if not
stock_type: stock_type = self.get_stock_type(code)`), extracted so the payout
characterisation below can name the resolved archetype. -/
def resolvedType (stock_type : Option String) (fetched_type : String) : String :=
  match stock_type with
  | none => fetched_type
  | some s => if s = "" then fetched_type else s

/-- Modelled from the spec (amended): the final payout ratio used by the
estimator — the `(0,2)`-filtered three-year average when any history rows were
fetched, the `0.30` bank/utility default only when the fetched history is
empty, and the bank floor of `0.30` applied on top. -/
def finalPayoutSpec (hist : List DivRow) (stype : String) : ℚ :=
  let base :=
    if hist = [] then (if stype = "bank" ∨ stype = "utility" then 3/10 else 0)
    else avgPayoutGloss hist
  if stype = "bank" ∧ base < 3/10 then 3/10 else base

/-- A bar with positive prices but no stored moving averages. -/
def bareBar : Bar := ⟨1, 1, 1, none, none, none, none, none⟩

/-- Five bars with usable closes and no stored `ma120`. -/
def bareDf : List Bar := [bareBar, bareBar, bareBar, bareBar, bareBar]

/-- A bar with a stored (positive) `ma120`. -/
def storedMaBar : Bar := ⟨10, 10, 10, none, none, none, some 10, none⟩

/-- Five bars with a stored `ma120` of 10. -/
def storedMaDf : List Bar := [storedMaBar, storedMaBar, storedMaBar, storedMaBar, storedMaBar]

/-- A 60-bar series with constant high 100 and low 0. -/
def wideDf : List Bar := List.replicate 60 ⟨50, 100, 0, none, none, none, none, none⟩

/-! ## Claim theorems -/

/-- C1 (counterexample): a `放量上行` (rising_high_volume) signal with
`ma120_status` below and deviation −10 is labelled `🟡 观望(价值区)` (watch,
value zone), not `⭐ 最佳买点` (best) as the claim requires. -/
theorem c1_counterexample :
    determineLabel "放量上行" "价格小于MA120" (-10) = ("🟡", "观望(价值区)") ∧
    determineLabel "放量上行" "价格小于MA120" (-10) ≠ ("⭐", "最佳买点") := by
  decide

/-- C1 (amended): only the signals `缩量回踩` (pullback_low_volume) and
`放量突破` (breakout_high_volume) are labelled best (`⭐`) when
`ma120_status` is below and good (`🟢`) otherwise; a `放量上行`
(rising_high_volume) signal always falls through to a watch (`🟡`) label. -/
theorem c1_short_signal_labels (s st : String) (dev : ℚ)
    (hs : s ∈ (["缩量回踩", "放量突破"] : List String)) :
    (determineLabel s st dev =
      if st = "价格小于MA120" then ("⭐", "最佳买点") else ("🟢", "良好买点")) ∧
    (determineLabel "放量上行" st dev).1 = "🟡" := by
  constructor
  · simp only [List.mem_cons, List.mem_singleton, List.not_mem_nil, or_false] at hs
    rcases hs with h | h
    all_goals subst h
    all_goals unfold determineLabel
    all_goals rw [if_neg (by decide), if_neg (by decide), if_pos (by decide)]
    all_goals by_cases hb : st = "价格小于MA120"
    · rw [if_pos hb, if_pos hb]
    · rw [if_neg hb, if_neg hb, ite_self]
    · rw [if_pos hb, if_pos hb]
    · rw [if_neg hb, if_neg hb, ite_self]
  · unfold determineLabel
    rw [if_neg (by decide), if_neg (by decide), if_neg (by decide)]
    split
    · rfl
    · rfl

/-- C1 (witness): instantiation of the amended theorem at the pullback signal
below MA120. -/
theorem c1_witness :
    ("缩量回踩" ∈ (["缩量回踩", "放量突破"] : List String)) ∧
    determineLabel "缩量回踩" "价格小于MA120" (-10) = ("⭐", "最佳买点") := by
  refine ⟨by decide, ?_⟩
  have h := (c1_short_signal_labels "缩量回踩" "价格小于MA120" (-10) (by decide)).1
  rw [if_pos rfl] at h
  exact h

/-- C3 (counterexample): with `ma20 = 100` and `price = 97 < ma20*0.98`, a
low volume ratio (0.5) and `ma5 = 97` make the higher-priority pullback rule
fire first, so the detector returns `缩量回踩`, not `破位` (breakdown). -/
theorem c3_counterexample :
    analyzeShortSignal 97 97 0 100 (1/2) [] = "缩量回踩" ∧
    analyzeShortSignal 97 97 0 100 (1/2) [] ≠ "破位" ∧
    (97 : ℚ) < 100 * (98/100) ∧ (0 : ℚ) < 100 := by
  have h : analyzeShortSignal 97 97 0 100 (1/2) [] = "缩量回踩" := by
    simp only [analyzeShortSignal]
    norm_num
  exact ⟨h, by rw [h]; decide, by norm_num, by norm_num⟩

/-- C3 (amended): `ma20 > 0` and `price < ma20*0.98` yield the `破位`
(breakdown) signal and the `🔴 规避` (avoid) label provided no
higher-priority volume rule fires first, e.g. whenever the volume ratio lies
in `[0.8, 1.5]`; this holds for every price, `ma5`, `ma10` and dataframe. -/
theorem c3_breakdown_label (price ma5 ma10 ma20 vr : ℚ) (df : List Bar)
    (st : String) (dev : ℚ)
    (h1 : 8/10 ≤ vr) (h2 : vr ≤ 3/2) (h3 : 0 < ma20)
    (h4 : price < ma20 * (98/100)) :
    analyzeShortSignal price ma5 ma10 ma20 vr df = "破位" ∧
    determineLabel "破位" st dev = ("🔴", "规避") := by
  constructor
  · simp only [analyzeShortSignal]
    rw [if_neg (by rintro ⟨hv, -⟩; linarith),
        if_neg (by rintro ⟨hv, -⟩; linarith),
        if_neg (by rintro ⟨hv, -⟩; linarith),
        if_pos ⟨h3, h4⟩]
  · unfold determineLabel
    rw [if_pos rfl]

/-- C3 (witness): instantiation of the amended theorem at
`price = 97, ma20 = 100, volume_ratio = 1`. -/
theorem c3_witness :
    (8/10 : ℚ) ≤ 1 ∧ (1 : ℚ) ≤ 3/2 ∧ (0 : ℚ) < 100 ∧
    (97 : ℚ) < 100 * (98/100) ∧
    analyzeShortSignal 97 0 0 100 1 [] = "破位" ∧
    determineLabel "破位" "价格大于MA120" 10 = ("🔴", "规避") := by
  have h := c3_breakdown_label 97 0 0 100 1 [] "价格大于MA120" 10
    (by norm_num) (by norm_num) (by norm_num) (by norm_num)
  exact ⟨by norm_num, by norm_num, by norm_num, by norm_num, h.1, h.2⟩

/-- C4 (counterexample): with all of `ma5`, `ma10`, `ma20` zero and a volume
ratio of 0.5, the second pullback rule fires (its bias test degrades to
`|0| < 2`), so the detector returns `缩量回踩`, not `无信号`. -/
theorem c4_counterexample :
    analyzeShortSignal 50 0 0 0 (1/2) [] = "缩量回踩" ∧
    analyzeShortSignal 50 0 0 0 (1/2) [] ≠ "无信号" := by
  have h : analyzeShortSignal 50 0 0 0 (1/2) [] = "缩量回踩" := by
    simp only [analyzeShortSignal]
    norm_num
  exact ⟨h, by rw [h]; decide⟩

/-- C4 (amended): when `ma5`, `ma10` and `ma20` are all zero/missing the
detector raises no exception and returns `缩量回踩` when the volume ratio is
below 0.8 (the degraded bias test `|0| < 2` passes) and `无信号` otherwise,
for every price, volume ratio and dataframe. -/
theorem c4_all_zero_mas (price vr : ℚ) (df : List Bar) :
    analyzeShortSignal price 0 0 0 vr df =
      if vr < 8/10 then "缩量回踩" else "无信号" := by
  simp only [analyzeShortSignal]
  norm_num

/-- C6: the fundamental score is clamped to `[0, 60]` for every combination
of inputs, including when accumulated risk penalties would push the raw sum
below zero. -/
theorem c6_fundamental_score_clamped (industry : String)
    (pe dividend_yield price_change_pct price_from_high_pct : Option ℚ)
    (shareholder_selling : Bool) :
    0 ≤ (dangAnalyze industry pe dividend_yield price_change_pct
          price_from_high_pct shareholder_selling).fundamental_score ∧
    (dangAnalyze industry pe dividend_yield price_change_pct
        price_from_high_pct shareholder_selling).fundamental_score ≤ 60 := by
  simp only [dangAnalyze]
  exact ⟨le_max_left 0 _, max_le (by norm_num) (min_le_left 60 _)⟩

/-- C8: a non-positive current price, or a missing or non-positive dynamic
PE, makes the estimator return exactly `(0.0, "价格或PE数据无效")`; the
`false` flag records that the dividend-history collaborator is not invoked on
this path (and the result is independent of `hist` and `fetched_type`). -/
theorem c8_invalid_input_guard (hist : List DivRow) (fetched_type : String)
    (current_price : ℚ) (pe_dynamic : Option ℚ) (stock_type : Option String)
    (h : current_price ≤ 0 ∨ pe_dynamic = none ∨ pe_dynamic.getD 0 ≤ 0) :
    calcExpectedYield hist fetched_type current_price pe_dynamic stock_type =
      ((0, "价格或PE数据无效"), false) := by
  unfold calcExpectedYield
  rw [if_pos h]

/-- C8 (witness): the spec's own example `current_price = 0, pe_dynamic = 10`
with a nonempty history that is indeed never consulted. -/
theorem c8_witness :
    calcExpectedYield [⟨"2023年报", some 30⟩] "bank" 0 (some 10) none =
      ((0, "价格或PE数据无效"), false) ∧ (0 : ℚ) ≤ 0 :=
  ⟨c8_invalid_input_guard _ _ _ _ _ (Or.inl le_rfl), le_rfl⟩

/-- C10: for every archetype, every positive PE strictly above the
archetype's warning threshold is classified `危险` (danger) with score 0, and
the `danger` entry of the threshold table is never consulted: changing it
alone never changes the result of `evaluate_pe`. -/
theorem c10_pe_above_warning_is_danger (stock_type : StockType) (pe : ℚ)
    (hpos : 0 < pe) (hw : (PE_THRESHOLDS stock_type).warning < pe) :
    evaluatePE (some pe) stock_type = ("危险", 0) ∧
    ∀ (d : ℚ) (q : Option ℚ),
      evaluatePEWith { PE_THRESHOLDS stock_type with danger := d } q =
        evaluatePEWith (PE_THRESHOLDS stock_type) q := by
  have hia : (PE_THRESHOLDS stock_type).ideal ≤ (PE_THRESHOLDS stock_type).acceptable := by
    cases stock_type <;> norm_num [PE_THRESHOLDS]
  have haw : (PE_THRESHOLDS stock_type).acceptable ≤ (PE_THRESHOLDS stock_type).warning := by
    cases stock_type <;> norm_num [PE_THRESHOLDS]
  constructor
  · simp only [evaluatePE, evaluatePEWith]
    rw [if_neg (not_le.mpr hpos), if_neg (not_le.mpr (by linarith)),
        if_neg (not_le.mpr (by linarith)), if_neg (not_le.mpr hw)]
  · intro d q
    cases q with
    | none => rfl
    | some p => cases stock_type <;> rfl

/-- C10 (witness): a tech-archetype PE of 150 is already `危险` although the
tech danger threshold is 300. -/
theorem c10_witness :
    (0 : ℚ) < 150 ∧ (PE_THRESHOLDS .TECH).warning < 150 ∧
    (150 : ℚ) < (PE_THRESHOLDS .TECH).danger ∧
    evaluatePE (some 150) .TECH = ("危险", 0) :=
  ⟨by norm_num, by norm_num [PE_THRESHOLDS], by norm_num [PE_THRESHOLDS],
   (c10_pe_above_warning_is_danger .TECH 150 (by norm_num)
     (by norm_num [PE_THRESHOLDS])).1⟩

/-- The resolved MA120 is positive iff the stored value is positive or the
≥20-bar fallback mean is positive. -/
theorem resolveMa120_pos_iff (df : List Bar) :
    0 < resolveMa120 df ↔
      (0 < (df.getLastD defaultBar).ma120.getD 0 ∨
        (20 ≤ df.length ∧
          0 < (if 120 ≤ df.length then qMean (tailN 120 (df.map (·.close)))
               else qMean (df.map (·.close))))) := by
  simp only [resolveMa120]
  by_cases hc : (df.getLastD defaultBar).ma120.getD 0 ≤ 0 ∧ 20 ≤ df.length
  · rw [if_pos hc]
    constructor
    · intro h
      exact Or.inr ⟨hc.2, h⟩
    · rintro (hs | ⟨h20, hdyn⟩)
      · linarith [hc.1]
      · exact hdyn
  · rw [if_neg hc]
    constructor
    · intro h
      exact Or.inl h
    · rintro (hs | ⟨h20, hdyn⟩)
      · exact hs
      · rcases not_and_or.mp hc with h | h
        · exact not_le.mp h
        · exact absurd h20 h

/-- Theorem: `analyze` succeeds iff the series has at least 5 bars and MA120 resolves
to a positive value (stored, or — only with ≥20 bars — the fallback mean). -/
theorem analyze_isSome_iff (df : List Bar) (q : Option Quote) :
    (analyze df q).isSome = true ↔
      (5 ≤ df.length ∧
        (0 < (df.getLastD defaultBar).ma120.getD 0 ∨
          (20 ≤ df.length ∧
            0 < (if 120 ≤ df.length then qMean (tailN 120 (df.map (·.close)))
                 else qMean (df.map (·.close)))))) := by
  simp only [analyze]
  by_cases h1 : df.length < 5
  · rw [if_pos h1]
    exact iff_of_false (by simp) (fun hh => absurd hh.1 (by omega))
  · rw [if_neg h1]
    by_cases h2 : resolveMa120 df ≤ 0
    · rw [if_pos h2]
      exact iff_of_false (by simp)
        (fun hh => absurd ((resolveMa120_pos_iff df).mpr hh.2) (not_lt.mpr h2))
    · rw [if_neg h2]
      exact iff_of_true (by simp)
        ⟨by omega, (resolveMa120_pos_iff df).mp (not_le.mp h2)⟩

/-- C2 (counterexample): a 5-bar series with all closes equal to 1 (so every
close is usable) but no stored `ma120` makes `analyze` return `None`: the
dynamic fallback requires at least 20 bars, so it never runs here. -/
theorem c2_counterexample :
    analyze bareDf none = none ∧ 5 ≤ bareDf.length ∧
      bareDf.all (fun b => 0 < b.close) = true := by
  refine ⟨?_, by simp [bareDf], by simp [bareDf, bareBar]⟩
  rw [← Option.not_isSome_iff_eq_none]
  intro h
  obtain ⟨-, hd⟩ := (analyze_isSome_iff bareDf none).mp (by simpa using h)
  rcases hd with hs | ⟨h20, -⟩
  · norm_num [bareDf, bareBar, List.getLastD] at hs
  · simp [bareDf] at h20

/-- C2 (amended): the evaluation returns a result iff the series has at least
5 bars and either the stored `ma120` is positive, or the series has at least
20 bars and the fallback mean (of the up-to-120 most recent closes) is
positive — in particular the fallback requires ≥20 bars, not merely one
usable close price. -/
theorem c2_ma120_fallback (df : List Bar) (q : Option Quote) :
    (analyze df q).isSome = true ↔
      (5 ≤ df.length ∧
        (0 < (df.getLastD defaultBar).ma120.getD 0 ∨
          (20 ≤ df.length ∧
            0 < (if 120 ≤ df.length then qMean (tailN 120 (df.map (·.close)))
                 else qMean (df.map (·.close)))))) :=
  analyze_isSome_iff df q

/-- C9: whenever `analyze` produces a result, its current price is the
realtime-quote price exactly when the quote is present with a strictly
positive price, and the last bar's close otherwise (quote absent, or price
missing, zero or negative). -/
theorem c9_realtime_override (df : List Bar) (q : Option Quote)
    (r : BuyPointResult) (h : analyze df q = some r) :
    r.current_price = round2 (match q with
      | some rq => if 0 < rq.price.getD 0 then rq.price.getD 0
                   else (df.getLastD defaultBar).close
      | none => (df.getLastD defaultBar).close) := by
  have key : ∀ m : ℚ, (buildResult df q m).current_price =
      round2 (match q with
        | some rq => if 0 < rq.price.getD 0 then rq.price.getD 0
                     else (df.getLastD defaultBar).close
        | none => (df.getLastD defaultBar).close) := by
    intro m
    cases q with
    | none => rfl
    | some rq => rfl
  simp only [analyze] at h
  by_cases h1 : df.length < 5
  · rw [if_pos h1] at h
    exact absurd h (by simp)
  · rw [if_neg h1] at h
    by_cases h2 : resolveMa120 df ≤ 0
    · rw [if_pos h2] at h
      exact absurd h (by simp)
    · rw [if_neg h2] at h
      obtain rfl := Option.some.inj h
      exact key _

/-- C9 (witness): with a stored `ma120` and a realtime quote of 12, the
reported current price is 12 (rounded). -/
theorem c9_witness :
    (analyze storedMaDf (some ⟨some 12⟩)).map (fun r => r.current_price) =
      some (round2 12) := by
  have hs : (analyze storedMaDf (some ⟨some 12⟩)).isSome = true := by
    rw [analyze_isSome_iff]
    refine ⟨by simp [storedMaDf], Or.inl ?_⟩
    norm_num [storedMaDf, storedMaBar, List.getLastD]
  obtain ⟨r, hr⟩ := Option.isSome_iff_exists.mp hs
  rw [hr]
  have h := c9_realtime_override storedMaDf (some ⟨some 12⟩) r hr
  norm_num [Option.getD] at h
  rw [Option.map_some', h]

/-- The payout-collecting loop of `calculate_avg_payout_ratio` as a
`filterMap`. -/
theorem payout_fold_eq (l : List DivRow) (acc : List ℚ) :
    l.foldl (fun acc r =>
      match r.payoutPct with
      | none => acc
      | some v => if 0 < v / 100 ∧ v / 100 < 2 then acc ++ [v / 100] else acc) acc =
    acc ++ l.filterMap (fun r => r.payoutPct.bind (fun v =>
      if 0 < v / 100 ∧ v / 100 < 2 then some (v / 100) else none)) := by
  induction l generalizing acc with
  | nil => simp
  | cons r t ih =>
    cases hp : r.payoutPct with
    | none =>
      simp only [List.foldl_cons, List.filterMap_cons, hp, Option.none_bind]
      exact ih acc
    | some v =>
      by_cases hcond : 0 < v / 100 ∧ v / 100 < 2
      · simp only [List.foldl_cons, List.filterMap_cons, hp, Option.some_bind,
          if_pos hcond]
        rw [ih]
        simp only [List.append_assoc, List.singleton_append]
      · simp only [List.foldl_cons, List.filterMap_cons, hp, Option.some_bind,
          if_neg hcond]
        exact ih acc

/-- The source's loop-based three-year average payout agrees with the
spec-worded description `avgPayoutGloss`. -/
theorem avg_code_eq_gloss (df : List DivRow) :
    avgPayoutRatio df 3 = avgPayoutGloss df := by
  by_cases hdf : df = []
  · subst hdf
    simp [avgPayoutRatio, avgPayoutGloss, annualRows, sortByPeriodDesc]
  · simp only [avgPayoutRatio, avgPayoutGloss, if_neg hdf]
    rw [payout_fold_eq]
    simp

/-- C5 (counterexample): a utility-archetype stock whose fetched history is
nonempty but contains only an out-of-range payout (250% > 200%) gets a payout
of 0, not the claimed 0.30 default — with price 10 and PE 5 the claimed
default would give a yield of 6, but the code yields 0. -/
theorem c5_counterexample :
    (calcExpectedYield [⟨"2023年报", some 250⟩] "utility" 10 (some 5)
        (some "utility")).1.1 = 0 ∧
    (100 : ℚ) * (3/10) / 5 = 6 ∧ (0 : ℚ) ≠ 6 := by
  have hc : containsStr "2023年报" "年报" = true := by decide
  have havg : avgPayoutRatio [⟨"2023年报", some 250⟩] 3 = 0 := by
    simp only [avgPayoutRatio, annualRows, sortByPeriodDesc]
    rw [if_neg (by simp)]
    norm_num [List.filter, hc, List.foldl]
  have hg : ¬((10 : ℚ) ≤ 0 ∨ (some (5:ℚ) : Option ℚ) = none ∨
      (some (5:ℚ) : Option ℚ).getD 0 ≤ 0) := by
    push_neg
    refine ⟨by norm_num, by simp, by simp⟩
  have hneq : ("utility" = "bank") = False := eq_false (by decide)
  refine ⟨?_, by norm_num, by norm_num⟩
  simp only [calcExpectedYield]
  rw [if_neg hg]
  norm_num [havg, ite_self, hneq]

/-- C5 (amended): the estimator's yield is `100 · final_payout / pe`, where
the final payout is the `(0,2)`-filtered three-year average of the annual
rows whenever any history rows were fetched (even if none are valid, giving
0), the 0.30 bank/utility default only when the fetched history is empty, and
a 0.30 floor for the bank archetype on top; the utility archetype gets no
floor. -/
theorem c5_payout_rule (hist : List DivRow) (fetched_type : String)
    (current_price pe : ℚ) (stock_type : Option String)
    (hp : 0 < current_price) (hpe : 0 < pe) :
    (calcExpectedYield hist fetched_type current_price (some pe)
        stock_type).1.1 =
      100 * finalPayoutSpec hist (resolvedType stock_type fetched_type) / pe ∧
    (calcExpectedYield hist fetched_type current_price (some pe)
        stock_type).2 = true := by
  have hg : ¬(current_price ≤ 0 ∨ (some pe : Option ℚ) = none ∨
      (some pe : Option ℚ).getD 0 ≤ 0) := by
    push_neg
    exact ⟨hp, by simp, by simpa using hpe⟩
  have key : ∀ f : ℚ, current_price / pe * f / current_price * 100 = 100 * f / pe := by
    intro f
    have h1 : current_price ≠ 0 := ne_of_gt hp
    have h2 : pe ≠ 0 := ne_of_gt hpe
    field_simp
    ring
  constructor
  · simp only [calcExpectedYield]
    rw [if_neg hg]
    simp only [Option.getD_some, avg_code_eq_gloss]
    rw [key]
    simp only [finalPayoutSpec, resolvedType]
  · simp only [calcExpectedYield]
    rw [if_neg hg]

/-- C5 (witness): instantiation of the amended theorem at the
invalid-history utility input. -/
theorem c5_witness :
    (0 : ℚ) < 10 ∧ (0 : ℚ) < 5 ∧
    (calcExpectedYield [⟨"2023年报", some 250⟩] "utility" 10 (some 5)
        (some "utility")).1.1 =
      100 * finalPayoutSpec [⟨"2023年报", some 250⟩]
        (resolvedType (some "utility") "utility") / 5 :=
  ⟨by norm_num, by norm_num,
   (c5_payout_rule [⟨"2023年报", some 250⟩] "utility" 10 5 (some "utility")
     (by norm_num) (by norm_num)).1⟩

theorem listMax_replicate (n : Nat) (x : ℚ) :
    listMax (List.replicate (n + 1) x) = x := by
  have key : ∀ m, List.foldl max x (List.replicate m x) = x := by
    intro m
    induction m with
    | zero => rfl
    | succ k ih => rw [List.replicate_succ, List.foldl_cons, max_self]; exact ih
  rw [List.replicate_succ]
  simp only [listMax]
  exact key n

theorem listMin_replicate (n : Nat) (x : ℚ) :
    listMin (List.replicate (n + 1) x) = x := by
  have key : ∀ m, List.foldl min x (List.replicate m x) = x := by
    intro m
    induction m with
    | zero => rfl
    | succ k ih => rw [List.replicate_succ, List.foldl_cons, min_self]; exact ih
  rw [List.replicate_succ]
  simp only [listMin]
  exact key n

/-- The head of a `descFst`-insertion-sorted list is a maximal element of the
original list. -/
theorem sortedDesc_head_max (l : List (ℚ × String)) (b : ℚ × String)
    (rest : List (ℚ × String)) (h : l.insertionSort descFst = b :: rest) :
    b ∈ l ∧ ∀ x ∈ l, x.1 ≤ b.1 := by
  have hperm := List.perm_insertionSort descFst l
  have hsorted := List.sorted_insertionSort descFst l
  rw [h] at hperm hsorted
  refine ⟨hperm.subset (List.mem_cons_self b rest), ?_⟩
  intro x hx
  rcases List.mem_cons.mp (hperm.mem_iff.mpr hx) with rfl | hx3
  · exact le_refl _
  · exact List.rel_of_sorted_cons hsorted x hx3

/-- C7: in the ≥60-bar branch, among all candidate support prices (Fibonacci
levels, resonances and standalone MAs) strictly below
`current_price * 0.995`, the locator always returns a candidate of maximal
price (rounded to 2 decimals) together with its rationale tag, and returns
`None` exactly when no candidate lies strictly below
`current_price * 0.995`. -/
theorem c7_support_selection (df : List Bar) (current_price : ℚ)
    (ma_dict : List (String × ℚ)) (h60 : 60 ≤ df.length) :
    ((resonanceSupports df current_price ma_dict).filter
        (fun s => s.1 < current_price * (995/1000)) = [] →
      calculateSupportPrice df current_price ma_dict = (none, "")) ∧
    ((resonanceSupports df current_price ma_dict).filter
        (fun s => s.1 < current_price * (995/1000)) ≠ [] →
      ∃ b ∈ (resonanceSupports df current_price ma_dict).filter
          (fun s => s.1 < current_price * (995/1000)),
        calculateSupportPrice df current_price ma_dict =
          (some (round2 b.1), b.2) ∧
        ∀ x ∈ (resonanceSupports df current_price ma_dict).filter
            (fun s => s.1 < current_price * (995/1000)), x.1 ≤ b.1) := by
  unfold calculateSupportPrice
  rw [if_neg (by omega : ¬ df.length < 60)]
  constructor
  · intro hempty
    by_cases hsup : resonanceSupports df current_price ma_dict = []
    · rw [if_pos hsup]
    · rw [if_neg hsup, if_pos hempty]
  · intro hne
    have hsup : resonanceSupports df current_price ma_dict ≠ [] := by
      intro h0
      apply hne
      rw [h0]
      rfl
    rw [if_neg hsup, if_neg hne]
    rcases hsort : ((resonanceSupports df current_price ma_dict).filter
        (fun s => s.1 < current_price * (995/1000))).insertionSort descFst with
      _ | ⟨b, rest⟩
    · have hperm := List.perm_insertionSort descFst
        ((resonanceSupports df current_price ma_dict).filter
          (fun s => s.1 < current_price * (995/1000)))
      rw [hsort] at hperm
      have hlen := hperm.length_eq
      simp only [List.length_nil] at hlen
      exact absurd (List.length_eq_zero.mp hlen.symm) hne
    · rw [hsort]
      obtain ⟨hmem, hmax⟩ := sortedDesc_head_max _ b rest hsort
      exact ⟨b, hmem, rfl, hmax⟩

/-- C7 (witness): instantiation of the claim theorem on a 60-bar series with
high 100 / low 0, current price 38 and a single MA at 30: all Fibonacci
levels (61.8, 50, 38.2) sit at or above the price, the MA support 30
qualifies, and it is returned as the (unique, hence maximal) candidate. -/
theorem c7_witness :
    ∃ b ∈ (resonanceSupports wideDf 38 [("MA5", 30)]).filter
        (fun s => s.1 < 38 * (995/1000)),
      calculateSupportPrice wideDf 38 [("MA5", 30)] = (some (round2 b.1), b.2) ∧
      ∀ x ∈ (resonanceSupports wideDf 38 [("MA5", 30)]).filter
          (fun s => s.1 < 38 * (995/1000)), x.1 ≤ b.1 := by
  have hhi : listMax (tailN 60 (wideDf.map (·.high))) = 100 := by
    rw [show wideDf.map (·.high) = List.replicate 60 (100:ℚ) by simp [wideDf]]
    rw [show tailN 60 (List.replicate 60 (100:ℚ)) = List.replicate 60 (100:ℚ) by
      simp [tailN]]
    exact listMax_replicate 59 100
  have hlo : listMin (tailN 60 (wideDf.map (·.low))) = 0 := by
    rw [show wideDf.map (·.low) = List.replicate 60 (0:ℚ) by simp [wideDf]]
    rw [show tailN 60 (List.replicate 60 (0:ℚ)) = List.replicate 60 (0:ℚ) by
      simp [tailN]]
    exact listMin_replicate 59 0
  have hres : resonanceSupports wideDf 38 [("MA5", 30)] = [(30, "MA5" ++ "支撑")] := by
    simp only [resonanceSupports]
    rw [hhi, hlo]
    simp only [fibLevels]
    norm_num [List.foldl]
  refine (c7_support_selection wideDf 38 [("MA5", 30)] (by simp [wideDf])).2 ?_
  rw [hres]
  norm_num [List.filter]

end StockAnalysis
